import Mathlib

/-!
Shallow embedding of the technical-adjustment listing service
(src/get.py, src/schema.py, src/exception_handler.py).

The data store is modelled as a list of rows; the SQL filter, count,
offset and limit of the source queries become List.filter, List.length,
List.drop and List.take over that list.  Machine integers are modelled as
Int, counts as Nat cast to Int where the code places them in metadata.
Python operations that can raise are modelled with Option/Except.
-/

namespace Subtle

/-- Row of the joined field-definition relation.  Carries the adjustment
type identifier code read through the join in both listing variants. -/
structure TechnicalAdjustmentField where
  adjustment_type_identifier_code : String
deriving DecidableEq, Repr

/-- Row of the joined model-configuration relation.  Carries the model
name read through the join in both listing variants. -/
structure TechnicalAdjustmentModelConfiguration where
  model_name : String
deriving DecidableEq, Repr

/-- Join entity linking an adjustment to its field definition and its
model configuration (two-level eager join in the source queries). -/
structure TechnicalAdjustmentModelField where
  technical_adjustment_field : TechnicalAdjustmentField
  technical_adjustment_model_configuration : TechnicalAdjustmentModelConfiguration
deriving DecidableEq, Repr

/-- Stored technical-adjustment row.  Identifier columns are modelled as
Int (the paged repository types them int); the three list-valued columns
are nullable in the store, hence Option; applies_to is an open-ended
nullable value, modelled as Option String; the numeric adjustment value
is carried opaquely (never computed on in this component) as Int. -/
structure TechnicalAdjustment where
  id : Int
  insurable_interest_set_id : Int
  policy_term_option_id : Int
  quote_option_id : Int
  asset_types : Option (List String)
  applies_to : Option String
  perils : Option (List String)
  insured_value_types : Option (List String)
  adjustment_model_field : TechnicalAdjustmentModelField
  adjustment_value : Int
  adjustment_reason : String
  reason_category : String
deriving DecidableEq, Repr

/-- The two mandatory filter equalities applied by every query in the
source: insurable_interest_set_id and policy_term_option_id must both
equal the caller-supplied identifiers. -/
def matchesFilters (insurable_interest_set_id policy_term_option_id : Int)
    (adj : TechnicalAdjustment) : Bool :=
  adj.insurable_interest_set_id == insurable_interest_set_id &&
    adj.policy_term_option_id == policy_term_option_id

/-- Flat output record built by the row-projection loops of the two
handlers (get.py lines 56-70 and 208-222); field names follow the
output dictionary keys.  The three sequence fields are non-optional:
the projection substitutes the empty list for an absent stored value. -/
structure TechnicalAdjustmentRecord where
  technicalAdjustmentId : Int
  model_name : String
  insurableInterestSetId : Int
  policyTermOptionId : Int
  quoteOptionId : Int
  assetTypes : List String
  appliesTo : Option String
  perils : List String
  insuredValueTypes : List String
  adjustmentTypeIdentifierCode : String
  adjustmentValue : Int
  adjustmentReason : String
  reasonCategory : String
deriving DecidableEq, Repr

/-- Row projection shared by both handlers.  Embeds the Python
expressions field by field; the list-valued columns use the idiom
(value or []), which yields the empty list when the stored value is
absent, modelled by Option.getD. -/
def projectAdjustment (adj : TechnicalAdjustment) : TechnicalAdjustmentRecord :=
  { technicalAdjustmentId := adj.id
    model_name :=
      adj.adjustment_model_field.technical_adjustment_model_configuration.model_name
    insurableInterestSetId := adj.insurable_interest_set_id
    policyTermOptionId := adj.policy_term_option_id
    quoteOptionId := adj.quote_option_id
    assetTypes := adj.asset_types.getD []
    appliesTo := adj.applies_to
    perils := adj.perils.getD []
    insuredValueTypes := adj.insured_value_types.getD []
    adjustmentTypeIdentifierCode :=
      adj.adjustment_model_field.technical_adjustment_field.adjustment_type_identifier_code
    adjustmentValue := adj.adjustment_value
    adjustmentReason := adj.adjustment_reason
    reasonCategory := adj.reason_category }

/-- HTTPException as raised by the non-paged handler. -/
structure HTTPException where
  status_code : Nat
  detail : String
deriving DecidableEq, Repr

/-- Non-paged listing handler (get.py lines 21-72).  Filters the store by
the two mandatory equalities; raises HTTPException 404 with a fixed
message when no row matches, otherwise returns the projected rows. -/
def get_technical_adjustments (db : List TechnicalAdjustment)
    (insurable_interest_set_id policy_term_option_id : Int) :
    Except HTTPException (List TechnicalAdjustmentRecord) :=
  let adjustments :=
    db.filter (matchesFilters insurable_interest_set_id policy_term_option_id)
  if adjustments.isEmpty then
    Except.error
      { status_code := 404
        detail := "No technical adjustments found for given parameters" }
  else
    Except.ok (adjustments.map projectAdjustment)

/-- Pagination metadata (PaginatedMeta in the source). -/
structure PaginatedMeta where
  total_items : Int
  total_pages : Int
  page_number : Int
  page_size : Int
deriving DecidableEq, Repr

/-- Generic paginated envelope (PaginatedResponse in the source). -/
structure PaginatedResponse (α : Type) where
  meta : PaginatedMeta
  records : List α
deriving DecidableEq, Repr

/-- Exact embedding of the Python expression math.ceil(a / b) on
integers: a ZeroDivisionError (none) when b = 0, otherwise the ceiling
of the exact rational quotient, computed as -((-a) // b) with // the
floor division Int.fdiv.  Rounding of the intermediate float true
division is not modelled; the source only ever divides small counts. -/
def mathCeilDiv (a b : Int) : Option Int :=
  if b = 0 then none else some (-(Int.fdiv (-a) b))

/-- Paged repository method list_with_related_fields_paged (get.py lines
112-169).  Clamps page to a minimum of 1, counts the matching rows
unbounded by paging, fetches the matching rows limited to page_size
starting at offset (page-1)*page_size, and builds the metadata with
total_pages guarded by the truthiness of page_size.  Negative limit or
offset values reaching the store are clamped to 0 by Int.toNat; the
store-specific behaviour of a negative SQL LIMIT/OFFSET is outside the
source.  The result is none exactly when a ZeroDivisionError escapes. -/
def list_with_related_fields_paged (db : List TechnicalAdjustment)
    (insurable_interest_set_id policy_term_option_id : Int)
    (page page_size : Int) :
    Option (PaginatedResponse TechnicalAdjustment) :=
  let page := max page 1
  let offset := (page - 1) * page_size
  let matching :=
    db.filter (matchesFilters insurable_interest_set_id policy_term_option_id)
  let total_items : Int := matching.length
  let records := (matching.drop offset.toNat).take page_size.toNat
  match (if page_size ≠ 0 then mathCeilDiv total_items page_size else some 1) with
  | none => none
  | some tp =>
    some { meta := { total_items := total_items
                     total_pages := tp
                     page_number := page
                     page_size := page_size }
           records := records }

/-- Paged route handler (get.py lines 191-227): runs the paged repository
method and projects each fetched row, returning the same metadata with
the projected rows as the records of a PaginatedResponse. -/
def list_technical_adjustments (db : List TechnicalAdjustment)
    (insurable_interest_set_id policy_term_option_id : Int)
    (page page_size : Int) :
    Option (PaginatedResponse TechnicalAdjustmentRecord) :=
  (list_with_related_fields_paged db insurable_interest_set_id
      policy_term_option_id page page_size).map
    fun paged => { meta := paged.meta
                   records := paged.records.map projectAdjustment }

/-- Values that can sit under a key of a serialized paginated envelope:
either the metadata object or the list of projected rows. -/
inductive DumpValue where
  | metaVal (m : PaginatedMeta)
  | recordsVal (rs : List TechnicalAdjustmentRecord)
deriving DecidableEq, Repr

/-- Python dict.pop with a default: removes the key when present and
returns its value, otherwise returns the default and leaves the
dictionary unchanged. -/
def dictPop (d : List (String × DumpValue)) (k : String) (dflt : DumpValue) :
    DumpValue × List (String × DumpValue) :=
  match d.lookup k with
  | some v => (v, d.filter (fun p => !(p.1 == k)))
  | none => (dflt, d)

/-- Python dict assignment: updates the value in place when the key is
present, otherwise appends the new key at the end (insertion order). -/
def dictSet (d : List (String × DumpValue)) (k : String) (v : DumpValue) :
    List (String × DumpValue) :=
  if d.any (fun p => p.1 == k) then
    d.map (fun p => if p.1 == k then (k, v) else p)
  else
    d ++ [(k, v)]

/-- Serialization of the generic paginated envelope: the parent
model_dump produces the keys meta and records in declaration order.
This is the externally-exposed shape of the get.py paged routes, whose
response_model is the generic PaginatedResponse. -/
def PaginatedResponse.model_dump (r : PaginatedResponse TechnicalAdjustmentRecord) :
    List (String × DumpValue) :=
  [("meta", DumpValue.metaVal r.meta), ("records", DumpValue.recordsVal r.records)]

/-- Serialization override of TechnicalAdjustmentListResponse (schema.py
lines 53-57): dumps through the parent, pops the records key with the
empty-list default, and stores its value under technicalAdjustments. -/
def TechnicalAdjustmentListResponse.model_dump
    (r : PaginatedResponse TechnicalAdjustmentRecord) :
    List (String × DumpValue) :=
  let data := PaginatedResponse.model_dump r
  let popped := dictPop data "records" (DumpValue.recordsVal [])
  dictSet popped.2 "technicalAdjustments" popped.1

/-- Severity levels of the structured logger. -/
inductive LogLevel where
  | debug
  | info
  | warning
  | error
deriving DecidableEq, Repr

/-- The incoming request as seen by the exception handler: only the URL
path is consulted. -/
structure Request where
  path : String
deriving DecidableEq, Repr

/-- An unexpected data-store failure (SQLAlchemyError); the message is
the internal exception text. -/
structure SQLAlchemyError where
  message : String
deriving DecidableEq, Repr

/-- One structured log record as emitted by logger.error in the handler:
severity, fixed message, the original exception, and the request path. -/
structure LogEntry where
  level : LogLevel
  message : String
  exc_info : SQLAlchemyError
  path : String
deriving DecidableEq, Repr

/-- One error detail of the uniform error envelope. -/
structure ErrorDetail where
  detail : String
deriving DecidableEq, Repr

/-- Uniform error envelope (timestamp, status, title, errors, path). -/
structure ErrorResponse where
  timestamp : Nat
  status : Nat
  title : String
  errors : List ErrorDetail
  path : String
deriving DecidableEq, Repr

/-- JSON response produced by the handler: encoded body plus status. -/
structure JSONResponse where
  body : ErrorResponse
  status_code : Nat
deriving DecidableEq, Repr

/-- Catch-all handler for unexpected SQLAlchemy exceptions
(src/exception_handler.py).  The wall-clock instant datetime.now is
passed in as the parameter now.  Returns the emitted log record
together with the HTTP response. -/
def sqlalchemy_error_handler (now : Nat) (request : Request)
    (exc : SQLAlchemyError) : LogEntry × JSONResponse :=
  let log : LogEntry :=
    { level := LogLevel.error
      message := "Unhandled SQLAlchemy error"
      exc_info := exc
      path := request.path }
  let http_status_code : Nat := 500
  let body : ErrorResponse :=
    { timestamp := now
      status := http_status_code
      title := "Database Error"
      errors :=
        [{ detail := "An unexpected database error occurred. Please contact support if the issue persists." }]
      path := request.path }
  (log, { body := body, status_code := http_status_code })

/-- Concrete joined sub-rows used by the closed witnesses below. -/
def sampleModelField : TechnicalAdjustmentModelField :=
  { technical_adjustment_field := { adjustment_type_identifier_code := "ModelToTechnical" }
    technical_adjustment_model_configuration := { model_name := "v0022025001" } }

/-- Concrete stored row matching the filters (1, 2), with all three
list-valued columns present. -/
def sampleAdjustment : TechnicalAdjustment :=
  { id := 10
    insurable_interest_set_id := 1
    policy_term_option_id := 2
    quote_option_id := 7
    asset_types := some ["onshore_property"]
    applies_to := none
    perils := some ["Fire"]
    insured_value_types := some []
    adjustment_model_field := sampleModelField
    adjustment_value := 2
    adjustment_reason := "Fire to tech added"
    reason_category := "Policy Coverage" }

/-- Concrete stored row matching the filters (1, 2) whose list-valued
columns are all absent. -/
def sampleAdjustmentAbsent : TechnicalAdjustment :=
  { id := 11
    insurable_interest_set_id := 1
    policy_term_option_id := 2
    quote_option_id := 8
    asset_types := none
    applies_to := none
    perils := none
    insured_value_types := none
    adjustment_model_field := sampleModelField
    adjustment_value := 3
    adjustment_reason := "Backfill"
    reason_category := "Policy Coverage" }

/-- Concrete stored row with a different identifier pair (3, 4). -/
def sampleAdjustmentOther : TechnicalAdjustment :=
  { id := 12
    insurable_interest_set_id := 3
    policy_term_option_id := 4
    quote_option_id := 9
    asset_types := some []
    applies_to := some "building"
    perils := some ["Flood"]
    insured_value_types := some ["tiv"]
    adjustment_model_field := sampleModelField
    adjustment_value := 5
    adjustment_reason := "Flood load"
    reason_category := "Exposure" }

/-! ### Arithmetic helpers: floor division and exact ceilings -/

/-- Floor division is invariant under negating both operands. -/
theorem fdiv_neg_neg (a b : Int) : Int.fdiv (-a) (-b) = Int.fdiv a b := by
  rcases b with n | n
  · rcases n with _ | n
    · simp [Int.fdiv_zero]
    · rcases a with m | m
      · rcases m with _ | m
        · simp [Int.zero_fdiv]
        · rfl
      · rfl
  · rcases a with m | m
    · rcases m with _ | m
      · simp [Int.zero_fdiv]
      · rfl
    · rfl

/-- For a positive divisor, Int.fdiv computes the floor of the exact
rational quotient. -/
theorem floor_rat_fdiv (a : Int) {b : Int} (hb : 0 < b) :
    ⌊(a : ℚ) / (b : ℚ)⌋ = a.fdiv b := by
  rw [Int.fdiv_eq_ediv _ (le_of_lt hb)]
  rw [Int.floor_eq_iff]
  have hbq : (0 : ℚ) < (b : ℚ) := by exact_mod_cast hb
  constructor
  · rw [le_div_iff₀ hbq]
    exact_mod_cast Int.ediv_mul_le a (ne_of_gt hb)
  · rw [div_lt_iff₀ hbq]
    exact_mod_cast Int.lt_ediv_add_one_mul_self a hb

/-- For a positive divisor, the ceiling of the exact rational quotient is
computed by the Python idiom -((-a) // b). -/
theorem ceil_rat_fdiv (a : Int) {b : Int} (hb : 0 < b) :
    ⌈(a : ℚ) / (b : ℚ)⌉ = -((-a).fdiv b) := by
  have h : ((a : ℚ)) / (b : ℚ) = -(((-a : Int) : ℚ) / (b : ℚ)) := by
    push_cast
    ring
  rw [h, Int.ceil_neg, floor_rat_fdiv (-a) hb]

/-- mathCeilDiv agrees with the exact rational ceiling on every nonzero
divisor, of either sign. -/
theorem mathCeilDiv_eq_ceil (a b : Int) (hb : b ≠ 0) :
    mathCeilDiv a b = some ⌈(a : ℚ) / (b : ℚ)⌉ := by
  unfold mathCeilDiv
  rcases lt_or_gt_of_ne hb with hneg | hpos
  · rw [if_neg hb]
    have h1 : Int.fdiv (-a) (-(-b)) = Int.fdiv a (-b) := fdiv_neg_neg a (-b)
    rw [neg_neg] at h1
    rw [h1]
    have h2 : ⌊(a : ℚ) / ((-b : Int) : ℚ)⌋ = a.fdiv (-b) := floor_rat_fdiv a (by omega)
    have h3 : (a : ℚ) / (b : ℚ) = -((a : ℚ) / ((-b : Int) : ℚ)) := by
      push_cast
      rw [div_neg]
      ring_nf
    rw [h3, Int.ceil_neg, h2]
  · rw [if_neg hb, ceil_rat_fdiv a hpos]

/-- The ceiling of a quotient with positive divisor brackets the
dividend: (q-1)*b < a ≤ q*b. -/
theorem ceil_div_mul_bounds (a : Int) {b : Int} (hb : 0 < b) :
    (⌈(a : ℚ) / (b : ℚ)⌉ - 1) * b < a ∧ a ≤ ⌈(a : ℚ) / (b : ℚ)⌉ * b := by
  have hbq : (0 : ℚ) < (b : ℚ) := by exact_mod_cast hb
  have h1 : (a : ℚ) / b ≤ ((⌈(a : ℚ) / (b : ℚ)⌉ : Int) : ℚ) := Int.le_ceil _
  have h2 : ((⌈(a : ℚ) / (b : ℚ)⌉ : Int) : ℚ) < (a : ℚ) / b + 1 := Int.ceil_lt_add_one _
  constructor
  · have h4 : ((⌈(a : ℚ) / (b : ℚ)⌉ : Int) : ℚ) - 1 < (a : ℚ) / b := by linarith
    have h5 : (((⌈(a : ℚ) / (b : ℚ)⌉ : Int) : ℚ) - 1) * b < (a : ℚ) :=
      (lt_div_iff₀ hbq).mp h4
    exact_mod_cast h5
  · have h5 : (a : ℚ) ≤ ((⌈(a : ℚ) / (b : ℚ)⌉ : Int) : ℚ) * b :=
      (div_le_iff₀ hbq).mp h1
    exact_mod_cast h5

/-! ### Normal forms of the paged repository method -/

/-- Normal form of the paged query for a nonzero page size: the
metadata carries the exact ceiling of total over page size between the
clamped page number and the echoed page size, and the records are the
offset/limit slice of the matching rows. -/
theorem list_with_related_fields_paged_eq (db : List TechnicalAdjustment)
    (iis pto page psize : Int) (h : psize ≠ 0) :
    list_with_related_fields_paged db iis pto page psize =
      some { meta := { total_items := ((db.filter (matchesFilters iis pto)).length : Int)
                       total_pages :=
                         ⌈(((db.filter (matchesFilters iis pto)).length : Int) : ℚ) / (psize : ℚ)⌉
                       page_number := max page 1
                       page_size := psize }
             records := ((db.filter (matchesFilters iis pto)).drop
                 ((max page 1 - 1) * psize).toNat).take psize.toNat } := by
  simp only [list_with_related_fields_paged]
  rw [if_pos h, mathCeilDiv_eq_ceil _ _ h]

/-- Normal form of the paged query for page size zero: the guard skips
the division, total_pages is 1, and the limit-0 fetch yields no rows. -/
theorem list_with_related_fields_paged_zero (db : List TechnicalAdjustment)
    (iis pto page : Int) :
    list_with_related_fields_paged db iis pto page 0 =
      some { meta := { total_items := ((db.filter (matchesFilters iis pto)).length : Int)
                       total_pages := 1
                       page_number := max page 1
                       page_size := 0 }
             records := [] } := by
  simp [list_with_related_fields_paged]

/-! ### Claim theorems -/

/-- C1, counterexample.  The claim says total_pages defaults to 1 for
any page_size ≤ 0.  At page_size = -1 with no matching rows the guard
on the truthiness of page_size does not trigger, the division runs, and
total_pages is the ceiling of 0 / -1 = 0, not 1. -/
theorem c1_total_pages_default_counterexample :
    ((list_with_related_fields_paged [] 1 2 1 (-1)).map fun r => r.meta.total_pages) =
      some 0 ∧
    ((list_with_related_fields_paged [] 1 2 1 (-1)).map fun r => r.meta.total_pages) ≠
      some 1 := by
  constructor
  · decide
  · decide

/-- C1, amended.  The paged listing never fails with a division error:
it always returns a result.  Whenever page_size is nonzero — positive
or negative — meta.total_pages is the exact ceiling of
total_items / page_size; total_pages defaults to 1 exactly when
page_size = 0 (the only falsy value). -/
theorem c1_total_pages_amended (db : List TechnicalAdjustment)
    (iis pto page psize : Int) :
    (list_with_related_fields_paged db iis pto page psize).isSome = true ∧
    (psize ≠ 0 →
      ((list_with_related_fields_paged db iis pto page psize).map
          fun r => r.meta.total_pages) =
        some ⌈(((db.filter (matchesFilters iis pto)).length : Int) : ℚ) / (psize : ℚ)⌉) ∧
    (psize = 0 →
      ((list_with_related_fields_paged db iis pto page psize).map
          fun r => r.meta.total_pages) = some 1) := by
  by_cases h : psize = 0
  · subst h
    rw [list_with_related_fields_paged_zero]
    exact ⟨rfl, fun hne => absurd rfl hne, fun _ => rfl⟩
  · rw [list_with_related_fields_paged_eq db iis pto page psize h]
    exact ⟨rfl, fun _ => rfl, fun hz => absurd hz h⟩

/-- C1, witness for the amended theorem at concrete inputs: one row
matching the filters with page_size 2, and the same store with
page_size 0. -/
theorem c1_total_pages_amended_witness :
    ((list_with_related_fields_paged [sampleAdjustment] 1 2 1 2).map
        fun r => r.meta.total_pages) =
      some ⌈((([sampleAdjustment].filter (matchesFilters 1 2)).length : Int) : ℚ) /
        ((2 : Int) : ℚ)⌉ ∧
    ((list_with_related_fields_paged [sampleAdjustment] 1 2 1 0).map
        fun r => r.meta.total_pages) = some 1 :=
  ⟨(c1_total_pages_amended [sampleAdjustment] 1 2 1 2).2.1 (by decide),
   (c1_total_pages_amended [sampleAdjustment] 1 2 1 0).2.2 rfl⟩

/-- C3.  When no row matches the two filters, the paged listing
succeeds (no 404 path exists in it), the records list is empty and
meta.total_items is 0, for every page and page size. -/
theorem c3_paged_zero_rows_succeeds (db : List TechnicalAdjustment)
    (iis pto page psize : Int)
    (h : db.filter (matchesFilters iis pto) = []) :
    ((list_with_related_fields_paged db iis pto page psize).map
        fun r => (r.records, r.meta.total_items)) = some ([], 0) := by
  by_cases hz : psize = 0
  · subst hz
    rw [list_with_related_fields_paged_zero]
    simp [h]
  · rw [list_with_related_fields_paged_eq db iis pto page psize hz]
    simp [h]

/-- C3, witness: a store holding only a row with a different identifier
pair, queried for the pair (1, 2). -/
theorem c3_paged_zero_rows_succeeds_witness :
    ((list_with_related_fields_paged [sampleAdjustmentOther] 1 2 1 50).map
        fun r => (r.records, r.meta.total_items)) = some ([], 0) :=
  c3_paged_zero_rows_succeeds [sampleAdjustmentOther] 1 2 1 50 (by decide)

/-- C4.  meta.total_items always equals the full count of matching
rows; the pair (total_items, total_pages) does not depend on the
requested page; and a page whose offset is at or past the end of the
matching set yields an empty records list while the metadata still
reports the true totals. -/
theorem c4_totals_reflect_full_set (db : List TechnicalAdjustment)
    (iis pto page page2 psize : Int) :
    ((list_with_related_fields_paged db iis pto page psize).map
        fun r => r.meta.total_items) =
      some ((db.filter (matchesFilters iis pto)).length : Int) ∧
    ((list_with_related_fields_paged db iis pto page psize).map
        fun r => (r.meta.total_items, r.meta.total_pages)) =
      ((list_with_related_fields_paged db iis pto page2 psize).map
        fun r => (r.meta.total_items, r.meta.total_pages)) ∧
    ((db.filter (matchesFilters iis pto)).length ≤ ((max page 1 - 1) * psize).toNat →
      ((list_with_related_fields_paged db iis pto page psize).map
          fun r => r.records) = some []) := by
  by_cases hz : psize = 0
  · subst hz
    rw [list_with_related_fields_paged_zero, list_with_related_fields_paged_zero]
    exact ⟨rfl, rfl, fun _ => rfl⟩
  · rw [list_with_related_fields_paged_eq db iis pto page psize hz,
      list_with_related_fields_paged_eq db iis pto page2 psize hz]
    refine ⟨rfl, rfl, fun hle => ?_⟩
    rw [List.drop_eq_nil_of_le hle]
    simp

/-- C4, witness: one matching row, page 5 of size 50 — the offset 200
is past the end, records are empty, hypothesis discharged by decide. -/
theorem c4_totals_reflect_full_set_witness :
    ((list_with_related_fields_paged [sampleAdjustment] 1 2 5 50).map
        fun r => r.records) = some [] :=
  (c4_totals_reflect_full_set [sampleAdjustment] 1 2 5 5 50).2.2 (by decide)

/-- C6.  A caller-supplied page below 1 is clamped to 1, so the whole
result coincides with the page-1 result and the fetch offset is 0 (the
records are the first page_size matching rows); for page ≥ 1 the fetch
offset is (page - 1) * page_size. -/
theorem c6_page_clamped_to_one (db : List TechnicalAdjustment)
    (iis pto page psize : Int) :
    (page < 1 →
      list_with_related_fields_paged db iis pto page psize =
        list_with_related_fields_paged db iis pto 1 psize) ∧
    (page < 1 →
      ((list_with_related_fields_paged db iis pto page psize).map
          fun r => r.records) =
        some ((db.filter (matchesFilters iis pto)).take psize.toNat)) ∧
    (1 ≤ page →
      ((list_with_related_fields_paged db iis pto page psize).map
          fun r => r.records) =
        some (((db.filter (matchesFilters iis pto)).drop
          ((page - 1) * psize).toNat).take psize.toNat)) := by
  refine ⟨fun hlt => ?_, fun hlt => ?_, fun hge => ?_⟩
  · have hmax : max page 1 = 1 := max_eq_right (le_of_lt hlt)
    by_cases hz : psize = 0
    · subst hz
      rw [list_with_related_fields_paged_zero, list_with_related_fields_paged_zero, hmax]
      norm_num
    · rw [list_with_related_fields_paged_eq db iis pto page psize hz,
        list_with_related_fields_paged_eq db iis pto 1 psize hz, hmax]
      norm_num
  · have hmax : max page 1 = 1 := max_eq_right (le_of_lt hlt)
    by_cases hz : psize = 0
    · subst hz
      rw [list_with_related_fields_paged_zero]
      simp
    · rw [list_with_related_fields_paged_eq db iis pto page psize hz, hmax]
      norm_num
  · have hmax : max page 1 = page := max_eq_left hge
    by_cases hz : psize = 0
    · subst hz
      rw [list_with_related_fields_paged_zero]
      simp
    · rw [list_with_related_fields_paged_eq db iis pto page psize hz, hmax]
      rfl

/-- C6, witness: page 0 is clamped (result equals page 1 and records
are the first 50 matching rows); page 2 uses offset (2-1)*50. -/
theorem c6_page_clamped_to_one_witness :
    list_with_related_fields_paged [sampleAdjustment] 1 2 0 50 =
      list_with_related_fields_paged [sampleAdjustment] 1 2 1 50 ∧
    ((list_with_related_fields_paged [sampleAdjustment] 1 2 0 50).map
        fun r => r.records) =
      some (([sampleAdjustment].filter (matchesFilters 1 2)).take ((50 : Int)).toNat) ∧
    ((list_with_related_fields_paged [sampleAdjustment] 1 2 2 50).map
        fun r => r.records) =
      some ((([sampleAdjustment].filter (matchesFilters 1 2)).drop
        (((2 : Int) - 1) * 50).toNat).take ((50 : Int)).toNat) :=
  ⟨(c6_page_clamped_to_one [sampleAdjustment] 1 2 0 50).1 (by decide),
   (c6_page_clamped_to_one [sampleAdjustment] 1 2 0 50).2.1 (by decide),
   (c6_page_clamped_to_one [sampleAdjustment] 1 2 2 50).2.2 (by decide)⟩

/-- C10.  meta.page_number is the clamped page max(page, 1), hence 1
whenever the caller passes page < 1, and at least 1 in every result. -/
theorem c10_page_number_clamped (db : List TechnicalAdjustment)
    (iis pto page psize : Int) :
    ((list_with_related_fields_paged db iis pto page psize).map
        fun r => r.meta.page_number) = some (max page 1) ∧
    (page < 1 →
      ((list_with_related_fields_paged db iis pto page psize).map
          fun r => r.meta.page_number) = some 1) ∧
    (∀ resp, list_with_related_fields_paged db iis pto page psize = some resp →
      1 ≤ resp.meta.page_number) := by
  have hbase :
      ((list_with_related_fields_paged db iis pto page psize).map
          fun r => r.meta.page_number) = some (max page 1) := by
    by_cases hz : psize = 0
    · subst hz
      rw [list_with_related_fields_paged_zero]
      rfl
    · rw [list_with_related_fields_paged_eq db iis pto page psize hz]
      rfl
  refine ⟨hbase, fun hlt => ?_, fun resp hresp => ?_⟩
  · rw [hbase, max_eq_right (le_of_lt hlt)]
  · have h2 : resp.meta.page_number = max page 1 := by
      rw [hresp] at hbase
      exact Option.some_injective _ hbase
    rw [h2]
    exact le_max_right page 1

/-- C10, witness: page 0 yields page_number 1, and the bound holds on
the concrete result. -/
theorem c10_page_number_clamped_witness :
    ((list_with_related_fields_paged [sampleAdjustment] 1 2 0 50).map
        fun r => r.meta.page_number) = some 1 :=
  (c10_page_number_clamped [sampleAdjustment] 1 2 0 50).2.1 (by decide)

/-- C2.  With N rows matching both filter equalities, the non-paged
listing returns exactly the N projected records when N > 0, and fails
with a 404 HTTPException carrying the fixed message when N = 0. -/
theorem c2_nonpaged_count_and_404 (db : List TechnicalAdjustment)
    (iis pto : Int) :
    (0 < (db.filter (matchesFilters iis pto)).length →
      get_technical_adjustments db iis pto =
        Except.ok ((db.filter (matchesFilters iis pto)).map projectAdjustment) ∧
      ∀ out, get_technical_adjustments db iis pto = Except.ok out →
        out.length = (db.filter (matchesFilters iis pto)).length) ∧
    ((db.filter (matchesFilters iis pto)).length = 0 →
      get_technical_adjustments db iis pto =
        Except.error { status_code := 404
                       detail := "No technical adjustments found for given parameters" }) := by
  constructor
  · intro hpos
    have hne : (db.filter (matchesFilters iis pto)).isEmpty = false := by
      rcases hfe : db.filter (matchesFilters iis pto) with _ | ⟨a, l⟩
      · rw [hfe] at hpos
        simp at hpos
      · rfl
    have hok : get_technical_adjustments db iis pto =
        Except.ok ((db.filter (matchesFilters iis pto)).map projectAdjustment) := by
      simp only [get_technical_adjustments]
      rw [hne]
      simp
    refine ⟨hok, fun out hout => ?_⟩
    rw [hok] at hout
    have := Except.ok.inj hout.symm
    rw [this, List.length_map]
  · intro hzero
    have hfe : (db.filter (matchesFilters iis pto)).isEmpty = true := by
      rw [List.isEmpty_iff_length_eq_zero]
      exact hzero
    simp only [get_technical_adjustments]
    rw [hfe]
    simp

/-- C2, witness: one matching row yields the single projected record;
the same store queried with the other identifier pair yields the 404. -/
theorem c2_nonpaged_count_and_404_witness :
    get_technical_adjustments [sampleAdjustment] 1 2 =
      Except.ok [projectAdjustment sampleAdjustment] ∧
    get_technical_adjustments [sampleAdjustment] 3 9 =
      Except.error { status_code := 404
                     detail := "No technical adjustments found for given parameters" } :=
  ⟨(((c2_nonpaged_count_and_404 [sampleAdjustment] 1 2).1 (by decide)).1).trans (by rfl),
   (c2_nonpaged_count_and_404 [sampleAdjustment] 3 9).2 (by decide)⟩

/-- C8.  In both listing variants, every returned record comes from a
stored row by the shared projection: its assetTypes, perils and
insuredValueTypes equal the stored optional values with the empty list
substituted for an absent value, so an absent stored value yields the
empty sequence and the response fields are never null (their type is a
plain list). -/
theorem c8_sequence_defaults (db : List TechnicalAdjustment)
    (iis pto page psize : Int) :
    (∀ out, get_technical_adjustments db iis pto = Except.ok out →
      ∀ r, r ∈ out → ∃ adj, adj ∈ db ∧
        r.assetTypes = adj.asset_types.getD [] ∧
        r.perils = adj.perils.getD [] ∧
        r.insuredValueTypes = adj.insured_value_types.getD []) ∧
    (∀ resp, list_technical_adjustments db iis pto page psize = some resp →
      ∀ r, r ∈ resp.records → ∃ adj, adj ∈ db ∧
        r.assetTypes = adj.asset_types.getD [] ∧
        r.perils = adj.perils.getD [] ∧
        r.insuredValueTypes = adj.insured_value_types.getD []) := by
  constructor
  · intro out hout r hr
    have hlist : out = (db.filter (matchesFilters iis pto)).map projectAdjustment := by
      unfold get_technical_adjustments at hout
      by_cases hfe : (db.filter (matchesFilters iis pto)).isEmpty
      · rw [if_pos hfe] at hout
        exact absurd hout (by simp)
      · rw [if_neg hfe] at hout
        exact (Except.ok.inj hout).symm
    rw [hlist] at hr
    obtain ⟨adj, hadj, hproj⟩ := List.mem_map.mp hr
    exact ⟨adj, List.mem_of_mem_filter hadj, by rw [← hproj]; exact ⟨rfl, rfl, rfl⟩⟩
  · intro resp hresp r hr
    unfold list_technical_adjustments at hresp
    obtain ⟨paged, hpaged, hmap⟩ := Option.map_eq_some'.mp hresp
    have hrec : resp.records = paged.records.map projectAdjustment := by
      rw [← hmap]
    rw [hrec] at hr
    obtain ⟨adj, hadj, hproj⟩ := List.mem_map.mp hr
    have hmem : adj ∈ db := by
      have hpe :
          paged.records =
            ((db.filter (matchesFilters iis pto)).drop
              ((max page 1 - 1) * psize).toNat).take psize.toNat := by
        by_cases hz : psize = 0
        · subst hz
          rw [list_with_related_fields_paged_zero] at hpaged
          rw [← Option.some_injective _ hpaged]
          simp
        · rw [list_with_related_fields_paged_eq db iis pto page psize hz] at hpaged
          rw [← Option.some_injective _ hpaged]
      rw [hpe] at hadj
      exact List.mem_of_mem_filter (List.mem_of_mem_drop (List.mem_of_mem_take hadj))
    exact ⟨adj, hmem, by rw [← hproj]; exact ⟨rfl, rfl, rfl⟩⟩

/-- C8, witness: a store whose single matching row has all three
list-valued columns absent; the non-paged output record defaults all
three sequences to the empty list. -/
theorem c8_sequence_defaults_witness :
    ∃ adj, adj ∈ [sampleAdjustmentAbsent] ∧
      (projectAdjustment sampleAdjustmentAbsent).assetTypes = adj.asset_types.getD [] ∧
      (projectAdjustment sampleAdjustmentAbsent).perils = adj.perils.getD [] ∧
      (projectAdjustment sampleAdjustmentAbsent).insuredValueTypes =
        adj.insured_value_types.getD [] :=
  (c8_sequence_defaults [sampleAdjustmentAbsent] 1 2 1 50).1
    [projectAdjustment sampleAdjustmentAbsent] (by rfl)
    (projectAdjustment sampleAdjustmentAbsent) (by decide)

/-- C9.  The SQLAlchemy handler always answers HTTP 500 with title
Database Error and a single fixed detail; the response is identical for
every internal exception (so no internal text can leak into it); and
the original failure is logged at error severity with the exception
object and the request path. -/
theorem c9_database_error_envelope (now : Nat) (request : Request)
    (exc : SQLAlchemyError) :
    (sqlalchemy_error_handler now request exc).2.status_code = 500 ∧
    (sqlalchemy_error_handler now request exc).2.body.status = 500 ∧
    (sqlalchemy_error_handler now request exc).2.body.title = "Database Error" ∧
    (sqlalchemy_error_handler now request exc).2.body.errors =
      [{ detail := "An unexpected database error occurred. Please contact support if the issue persists." }] ∧
    (∀ other : SQLAlchemyError,
      (sqlalchemy_error_handler now request other).2 =
        (sqlalchemy_error_handler now request exc).2) ∧
    (sqlalchemy_error_handler now request exc).1.level = LogLevel.error ∧
    (sqlalchemy_error_handler now request exc).1.exc_info = exc ∧
    (sqlalchemy_error_handler now request exc).1.path = request.path :=
  ⟨rfl, rfl, rfl, rfl, fun _ => rfl, rfl, rfl, rfl⟩

/-- C7, counterexample.  The claim says every successful paged listing
exposes the rows under technicalAdjustments and not records.  The paged
route of get.py serializes through the generic PaginatedResponse model:
on a successful listing its dump has no technicalAdjustments key and
keeps the rows under records. -/
theorem c7_records_key_counterexample :
    ((list_technical_adjustments [sampleAdjustment] 1 2 1 50).map fun r =>
        ((PaginatedResponse.model_dump r).lookup "technicalAdjustments",
         ((PaginatedResponse.model_dump r).lookup "records").isSome)) =
      some (none, true) := by
  decide

/-- C7, amended.  Only responses serialized through the
TechnicalAdjustmentListResponse override expose the rows under
technicalAdjustments with the records key removed (meta preserved);
the get.py paged handlers expose the generic PaginatedResponse shape,
which keeps the rows under records and has no technicalAdjustments
key. -/
theorem c7_rename_amended (r : PaginatedResponse TechnicalAdjustmentRecord) :
    (TechnicalAdjustmentListResponse.model_dump r).lookup "technicalAdjustments" =
      some (DumpValue.recordsVal r.records) ∧
    (TechnicalAdjustmentListResponse.model_dump r).lookup "records" = none ∧
    (TechnicalAdjustmentListResponse.model_dump r).lookup "meta" =
      some (DumpValue.metaVal r.meta) ∧
    (PaginatedResponse.model_dump r).lookup "records" =
      some (DumpValue.recordsVal r.records) ∧
    (PaginatedResponse.model_dump r).lookup "technicalAdjustments" = none := by
  refine ⟨?_, ?_, ?_, rfl, rfl⟩ <;>
    simp [TechnicalAdjustmentListResponse.model_dump, PaginatedResponse.model_dump,
      dictPop, dictSet, List.lookup]

/-- Concrete third stored row matching the filters (1, 2), giving a
three-row matching set for the pagination scenario. -/
def sampleAdjustmentThird : TechnicalAdjustment :=
  { id := 13
    insurable_interest_set_id := 1
    policy_term_option_id := 2
    quote_option_id := 14
    asset_types := some ["onshore_property"]
    applies_to := none
    perils := some ["Hail"]
    insured_value_types := some ["tiv"]
    adjustment_model_field := sampleModelField
    adjustment_value := 4
    adjustment_reason := "Hail load"
    reason_category := "Policy Coverage" }

/-- C5.  For a positive page size P and N matching rows: the records
are exactly the slice of the matching set starting at offset
(page-1)*P of length at most P; page 1 returns min(P, N) records; and
when N > 0, requesting the page equal to total_pages = ceil(N/P)
returns the remaining N - (total_pages - 1) * P records. -/
theorem c5_page_slices (db : List TechnicalAdjustment)
    (iis pto page psize : Int) (hP : 0 < psize) :
    (((list_with_related_fields_paged db iis pto page psize).map
        fun r => r.records) =
      some (((db.filter (matchesFilters iis pto)).drop
        ((max page 1 - 1) * psize).toNat).take psize.toNat)) ∧
    (∀ r, list_with_related_fields_paged db iis pto page psize = some r →
      r.records.length ≤ psize.toNat) ∧
    (page = 1 →
      ((list_with_related_fields_paged db iis pto page psize).map
          fun r => r.records.length) =
        some (min psize.toNat (db.filter (matchesFilters iis pto)).length)) ∧
    (0 < (db.filter (matchesFilters iis pto)).length →
      ((list_with_related_fields_paged db iis pto
            ⌈(((db.filter (matchesFilters iis pto)).length : Int) : ℚ) / (psize : ℚ)⌉
            psize).map
          fun r => r.records.length) =
        some ((db.filter (matchesFilters iis pto)).length -
          ((⌈(((db.filter (matchesFilters iis pto)).length : Int) : ℚ) / (psize : ℚ)⌉ - 1) *
            psize).toNat)) := by
  have hz : psize ≠ 0 := ne_of_gt hP
  refine ⟨?_, ?_, ?_, ?_⟩
  · rw [list_with_related_fields_paged_eq db iis pto page psize hz]
    rfl
  · intro r hr
    rw [list_with_related_fields_paged_eq db iis pto page psize hz] at hr
    have hrec := congrArg PaginatedResponse.records (Option.some_injective _ hr)
    rw [← hrec]
    exact List.length_take_le _ _
  · intro h1
    subst h1
    rw [list_with_related_fields_paged_eq db iis pto 1 psize hz]
    simp
  · intro hN
    have hNi : (0 : Int) < ((db.filter (matchesFilters iis pto)).length : Int) := by
      exact_mod_cast hN
    obtain ⟨hb1, hb2⟩ :=
      ceil_div_mul_bounds ((db.filter (matchesFilters iis pto)).length : Int) hP
    have hq1 : 1 ≤ ⌈(((db.filter (matchesFilters iis pto)).length : Int) : ℚ) / (psize : ℚ)⌉ := by
      nlinarith
    rw [list_with_related_fields_paged_eq db iis pto _ psize hz, max_eq_left hq1]
    simp only [Option.map_some']
    have hqp :
        ⌈(((db.filter (matchesFilters iis pto)).length : Int) : ℚ) / (psize : ℚ)⌉ * psize =
          (⌈(((db.filter (matchesFilters iis pto)).length : Int) : ℚ) / (psize : ℚ)⌉ - 1) *
            psize + psize := by
      ring
    rw [hqp] at hb2
    have h0 :
        0 ≤ (⌈(((db.filter (matchesFilters iis pto)).length : Int) : ℚ) / (psize : ℚ)⌉ - 1) *
          psize :=
      mul_nonneg (by omega) hP.le
    generalize hO :
      (⌈(((db.filter (matchesFilters iis pto)).length : Int) : ℚ) / (psize : ℚ)⌉ - 1) *
        psize = O at hb1 hb2 h0 ⊢
    simp [List.length_take, List.length_drop]
    omega

/-- C5, witness: three matching rows with page size 2 — page 1 returns
min(2, 3) = 2 records, and the last page ceil(3/2) = 2 returns the
remaining 3 - (2-1)*2 = 1 record. -/
theorem c5_page_slices_witness :
    ((list_with_related_fields_paged
        [sampleAdjustment, sampleAdjustmentAbsent, sampleAdjustmentThird] 1 2 1 2).map
        fun r => r.records.length) =
      some (min ((2 : Int)).toNat
        (([sampleAdjustment, sampleAdjustmentAbsent, sampleAdjustmentThird].filter
          (matchesFilters 1 2)).length)) ∧
    ((list_with_related_fields_paged
        [sampleAdjustment, sampleAdjustmentAbsent, sampleAdjustmentThird] 1 2
        ⌈((([sampleAdjustment, sampleAdjustmentAbsent, sampleAdjustmentThird].filter
            (matchesFilters 1 2)).length : Int) : ℚ) / ((2 : Int) : ℚ)⌉ 2).map
        fun r => r.records.length) =
      some (([sampleAdjustment, sampleAdjustmentAbsent, sampleAdjustmentThird].filter
          (matchesFilters 1 2)).length -
        ((⌈((([sampleAdjustment, sampleAdjustmentAbsent, sampleAdjustmentThird].filter
            (matchesFilters 1 2)).length : Int) : ℚ) / ((2 : Int) : ℚ)⌉ - 1) *
          (2 : Int)).toNat) :=
  ⟨(c5_page_slices [sampleAdjustment, sampleAdjustmentAbsent, sampleAdjustmentThird]
      1 2 1 2 (by decide)).2.2.1 rfl,
   (c5_page_slices [sampleAdjustment, sampleAdjustmentAbsent, sampleAdjustmentThird]
      1 2 37 2 (by decide)).2.2.2 (by decide)⟩

end Subtle
